import Mathlib

/-!
Shallow embedding of `src/pms/core/reader.py` (PyPMS): the value types
`RawData` / `Reading`, the two `Stream` variants (`SensorStream`,
`MessageStream`) and the two `Reader` variants (`SensorReader`,
`MessageReader`).

Python exceptions are modelled as explicit error values; the serial
transport and the sensor decode capability are parameters of the
definitions (they are external collaborators of the core).  Mutable
instance attributes become explicit state records, and the generator
loops of `SensorReader.__call__` / `MessageReader.__call__` become
recursive functions over the finite trace of read outcomes supplied by
the environment.
-/

set_option autoImplicit false

namespace PyPMS

/-- Python runtime errors that the modelled code can raise. -/
inductive PyError
  | typeError
  | attributeError
  | portNotOpen
  deriving DecidableEq, Repr

/-- Errors raised by the external `sensor.decode` capability
(`SensorNotReady` / `SensorWarning` in `pms`). -/
inductive DecodeErr
  | sensorNotReady
  | sensorWarning
  deriving DecidableEq, Repr

/-- Decoded observation (`ObsData` from `pms.core.types`): only the
fields the reader core touches are modelled — the timestamp used for
pacing and one representative decoded value. -/
structure ObsData where
  time : Int
  pm10 : Int
  deriving DecidableEq, Repr

/-- `RawData(NamedTuple)`: raw message bytes with timestamp.  Bytes are
modelled as `List Nat` (each entry < 256). -/
structure RawData where
  time : Int
  data : List Nat
  deriving DecidableEq, Repr

/-- `Reading`: one successful acquisition, raw buffer plus decoded data. -/
structure Reading where
  buffer : List Nat
  obs_data : ObsData
  deriving DecidableEq, Repr

/-- `Reading.time` property: delegated to `obs_data.time`. -/
def Reading.time (r : Reading) : Int := r.obs_data.time

/-- `Reading.raw_data` property: `RawData(self.time, self.buffer)`. -/
def Reading.raw_data (r : Reading) : RawData := ⟨r.time, r.buffer⟩

/-- Items produced by a Reader: `reading.raw_data if raw else reading.obs_data`. -/
inductive Yielded
  | raw (d : RawData)
  | obs (o : ObsData)
  deriving DecidableEq, Repr

/-! ## hexdump (`RawData.hexdump` and `HEXDUMP_TABLE`) -/

/-- Lowercase hexadecimal digit, as produced by `bytes.hex` and `"x"` formatting. -/
def hexDigit (n : Nat) : Char :=
  if n < 10 then Char.ofNat (48 + n) else Char.ofNat (87 + n)

/-- Two lowercase hex digits for one byte: one element of
`wrap(self.data.hex(), 2)`. -/
def byteHex (b : Nat) : String :=
  String.mk [hexDigit (b / 16 % 16), hexDigit (b % 16)]

/-- Hex digits of `n`, most significant first (fuel-indexed division loop). -/
def hexChars (fuel : Nat) (n : Nat) : List Char :=
  match fuel with
  | 0 => []
  | fuel + 1 =>
    if n < 16 then [hexDigit n]
    else hexChars fuel (n / 16) ++ [hexDigit (n % 16)]

/-- Lowercase hex representation of a natural number, no padding. -/
def natHex (n : Nat) : String := String.mk (hexChars (n + 1) n)

/-- Zero-pad a digit string on the left to width `w`. -/
def zeroPad (w : Nat) (s : String) : String :=
  if s.length < w then String.mk (List.replicate (w - s.length) '0') ++ s else s

/-- Python `f"{i:08x}"` for an `int`: width 8 counts the sign character. -/
def pyFormat08x (i : Int) : String :=
  if i < 0 then "-" ++ zeroPad 7 (natHex (-i).toNat) else zeroPad 8 (natHex i.toNat)

/-- `HEXDUMP_TABLE` applied to one byte then decoded: bytes `0x00..0x1F`
and `0x7E..0xFF` are mapped to `'.'`, the rest decode to themselves. -/
def dumpChar (b : Nat) : Char :=
  if 0x20 ≤ b ∧ b ≤ 0x7D then Char.ofNat b else '.'

/-- `RawData.hexdump(line)`.  The source reads

    offset = time if line is None else line * len(self.data)

where `time` is the imported `time` MODULE (a module-level import), not
the named-tuple field `self.time`: with `line is None` the subsequent
`f"{offset:08x}"` formats a module object with a numeric format spec and
raises `TypeError`.  With an explicit `line` the offset is
`line * len(data)` and the dump string is produced. -/
def RawData.hexdump (rd : RawData) (line : Option Int) : Except PyError String :=
  match line with
  | none => Except.error PyError.typeError
  | some l =>
    let offset : Int := l * rd.data.length
    Except.ok (pyFormat08x offset ++ ": " ++
      String.intercalate " " (rd.data.map byteHex) ++ "  " ++
      String.mk (rd.data.map dumpChar))

/-! ## SensorStream -/

/-- Mutable attributes of `SensorStream` that the claims depend on:
`self.pre_heat` (seconds still to wait) and `self.serial.is_open`. -/
structure SensorStreamState where
  pre_heat : Nat
  is_open : Bool
  deriving DecidableEq, Repr

/-- `UnableToRead` conditions raised by `SensorStream.open`. -/
inductive OpenError
  | didNotRespond
  | failedValidation
  deriving DecidableEq, Repr

/-- Outcome of one `SensorStream.open()` call: seconds slept pre-heating,
the stream state afterwards, and the raised `UnableToRead` error if any. -/
structure SensorOpenResult where
  wait : Nat
  state : SensorStreamState
  error : Option OpenError
  deriving DecidableEq, Repr

/-- `SensorStream.open()`: open the port; send `wake` (the device answers
`wakeResp`); `_pre_heat()` — sleep `pre_heat` seconds then zero the
counter (no-op when the counter is already 0); send `passive_mode` (the
device answers `pmResp`); then check the combined buffer: empty buffer
raises `UnableToRead("Sensor did not respond")`, a buffer failing
`sensor.check(buffer, "passive_mode")` raises
`UnableToRead("Sensor failed validation")`.  The device responses and the
model `check` predicate are parameters (external collaborators). -/
def sensorOpen (st : SensorStreamState) (wakeResp pmResp : List Nat)
    (check : List Nat → Bool) : SensorOpenResult :=
  let opened : SensorStreamState := { st with is_open := true }
  let wait := opened.pre_heat
  let heated : SensorStreamState := { opened with pre_heat := 0 }
  let buffer := wakeResp ++ pmResp
  if buffer.length = 0 then ⟨wait, heated, some OpenError.didNotRespond⟩
  else if check buffer then ⟨wait, heated, none⟩
  else ⟨wait, heated, some OpenError.failedValidation⟩

/-- `SensorStream.close()`: `_cmd("sleep")` writes to / reads from the
serial port — on a port that was never opened pyserial raises
`PortNotOpenError` — then `serial.close()`. -/
def sensorClose (st : SensorStreamState) : Except PyError SensorStreamState :=
  if st.is_open then Except.ok { st with is_open := false }
  else Except.error PyError.portNotOpen

/-- `Reader.__enter__`: calls `self.stream.open()` and returns `self`;
when `open` raises, the exception propagates and the `with` body is never
entered. -/
def readerEnterSensor (st : SensorStreamState) (wakeResp pmResp : List Nat)
    (check : List Nat → Bool) : Except OpenError SensorStreamState :=
  let r := sensorOpen st wakeResp pmResp check
  match r.error with
  | some e => Except.error e
  | none => Except.ok r.state

/-! ## SensorReader.__call__ -/

/-- Environment trace of one `stream.read()` attempt as seen by
`SensorReader.__call__`: a successful `Reading` together with the
wall-clock value `time.time()` observed at the pacing computation after
the yield, or one of the exceptions `SensorNotReady`, `SensorWarning`,
`StopIteration`. -/
inductive ReadEvent
  | success (rd : Reading) (now : Int)
  | notReady
  | warning
  | exhausted
  deriving DecidableEq, Repr

/-- Whether a read event is a successful reading. -/
def ReadEvent.isSuccess : ReadEvent → Bool
  | .success _ _ => true
  | _ => false

/-- The pacing sleep of `SensorReader.__call__`:

    if self.interval:
        delay = self.interval - (time.time() - reading.time)
        if delay > 0:
            time.sleep(delay)

`interval` is `Optional[int]`; both `None` and `0` are falsy. -/
def pacingDelay (interval : Option Int) (now rtime : Int) : Int :=
  match interval with
  | none => 0
  | some i =>
    if i = 0 then 0
    else
      let delay := i - (now - rtime)
      if delay > 0 then delay else 0

/-- Result of running the `SensorReader.__call__` generator to completion:
the yielded items, the total `time.sleep(5)` settle time spent on
`SensorNotReady`, and the total pacing sleep time.  The source loop exits
only by the sample-count `break` or by `StopIteration` (caught); it never
raises. -/
structure SensorRun where
  yields : List Yielded
  settleTotal : Int
  pacingTotal : Int
  deriving DecidableEq, Repr

/-- The `while True` loop of `SensorReader.__call__`, with `sample` the
local sample counter.  On `SensorNotReady`: `time.sleep(5)` and retry.
On `SensorWarning`: retry immediately.  On success: yield
(`raw_data` or `obs_data` by the `raw` flag), increment `sample`, break
when `self.samples is not None and sample >= self.samples`, otherwise
apply the pacing sleep and continue.  An exhausted trace or a
`StopIteration` ends the generator silently. -/
def sensorLoop (raw : Bool) (interval : Option Int) (samples : Option Int)
    (sample : Int) (events : List ReadEvent) : SensorRun :=
  match events with
  | [] => ⟨[], 0, 0⟩
  | ReadEvent.exhausted :: _ => ⟨[], 0, 0⟩
  | ReadEvent.notReady :: rest =>
    let r := sensorLoop raw interval samples sample rest
    ⟨r.yields, r.settleTotal + 5, r.pacingTotal⟩
  | ReadEvent.warning :: rest => sensorLoop raw interval samples sample rest
  | ReadEvent.success rd now :: rest =>
    let item := if raw then Yielded.raw rd.raw_data else Yielded.obs rd.obs_data
    match samples with
    | some n =>
      if sample + 1 ≥ n then ⟨[item], 0, 0⟩
      else
        let r := sensorLoop raw interval (some n) (sample + 1) rest
        ⟨item :: r.yields, r.settleTotal,
          pacingDelay interval now rd.time + r.pacingTotal⟩
    | none =>
      let r := sensorLoop raw interval none (sample + 1) rest
      ⟨item :: r.yields, r.settleTotal,
        pacingDelay interval now rd.time + r.pacingTotal⟩

/-- `SensorReader.__call__`: the generator starts each invocation with a
fresh local counter `sample = 0`. -/
def sensorReaderCall (raw : Bool) (interval : Option Int)
    (samples : Option Int) (events : List ReadEvent) : SensorRun :=
  sensorLoop raw interval samples 0 events

/-! ## MessageStream / MessageReader -/

/-- One row of the captured-messages CSV: `sensor`, `time`, `hex`
(already parsed to bytes). -/
structure Record where
  sensor : String
  time : Int
  hex : List Nat
  deriving DecidableEq, Repr

/-- Attributes of `MessageStream`: `self.csv` (`none` when the attribute
was never assigned, `some b` a file handle with open-flag `b`) and
`self.data` (`none` when the attribute was never assigned, otherwise the
rows remaining in the filtered generator). -/
structure MessageStreamState where
  csv : Option Bool
  data : Option (List Record)
  deriving DecidableEq, Repr

/-- A `MessageStream` as constructed: neither `self.csv` nor `self.data`
exists yet. -/
def msInit : MessageStreamState := ⟨none, none⟩

/-- `MessageStream.open()`: open the CSV and set
`self.data = (row for row in reader if row["sensor"] == self.sensor.name)`. -/
def msOpen (st : MessageStreamState) (rows : List Record) (model : String) :
    MessageStreamState :=
  { st with
    csv := some true
    data := some (rows.filter (fun r => r.sensor = model)) }

/-- `MessageStream.close()`: `self.csv.close()`.  When `open()` never ran,
the attribute `self.csv` does not exist and the access raises
`AttributeError`. -/
def msClose (st : MessageStreamState) : Except PyError MessageStreamState :=
  match st.csv with
  | none => Except.error PyError.attributeError
  | some _ => Except.ok { st with csv := some false }

/-- Mutable state of a `MessageReader`: `self.samples` and its stream. -/
structure MessageReaderState where
  samples : Option Int
  stream : MessageStreamState
  deriving DecidableEq, Repr

/-- The item yielded for one record, when its decode succeeds:
`reading.raw_data if raw else reading.obs_data` with
`reading = Reading(buffer=message, obs_data=decode(message, time=time))`. -/
def decodedItem (decode : List Nat → Int → Except DecodeErr ObsData)
    (raw : Bool) (r : Record) : Option Yielded :=
  match decode r.hex r.time with
  | Except.error _ => none
  | Except.ok o => some (if raw then Yielded.raw ⟨o.time, r.hex⟩ else Yielded.obs o)

/-- The `while True` loop of `MessageReader.__call__` over the rows left
in the stream's generator.  Each iteration: `stream.read()` (raises
`StopIteration` when the generator is exhausted, which the `except`
returns from; decode errors propagate), yield, then

    if self.samples:
        self.samples -= 1
        if self.samples <= 0:
            break

`self.samples` equal to `None` or `0` is falsy, so the budget is neither
decremented nor checked then.  Returns the yielded items, the final
`self.samples`, and the rows left unconsumed in the generator. -/
def messageLoop (decode : List Nat → Int → Except DecodeErr ObsData)
    (raw : Bool) (samples : Option Int) (rows : List Record) :
    Except DecodeErr (List Yielded × Option Int × List Record) :=
  match rows with
  | [] => Except.ok ([], samples, [])
  | row :: rest =>
    match decode row.hex row.time with
    | Except.error e => Except.error e
    | Except.ok o =>
      let item := if raw then Yielded.raw ⟨o.time, row.hex⟩ else Yielded.obs o
      match samples with
      | none =>
        match messageLoop decode raw none rest with
        | Except.error e => Except.error e
        | Except.ok (ys, s, rem) => Except.ok (item :: ys, s, rem)
      | some n =>
        if n = 0 then
          match messageLoop decode raw (some 0) rest with
          | Except.error e => Except.error e
          | Except.ok (ys, s, rem) => Except.ok (item :: ys, s, rem)
        else if n - 1 ≤ 0 then Except.ok ([item], some (n - 1), rest)
        else
          match messageLoop decode raw (some (n - 1)) rest with
          | Except.error e => Except.error e
          | Except.ok (ys, s, rem) => Except.ok (item :: ys, s, rem)

/-- `MessageReader.__call__`: when the stream was never opened,
`stream.read()` raises `StopIteration` at once (`self.data` missing) and
the generator yields nothing; otherwise the loop consumes the generator,
and the mutated `self.samples` and generator position persist on the
instance. -/
def messageCall (decode : List Nat → Int → Except DecodeErr ObsData)
    (raw : Bool) (st : MessageReaderState) :
    Except DecodeErr (List Yielded × MessageReaderState) :=
  match st.stream.data with
  | none => Except.ok ([], st)
  | some rows =>
    match messageLoop decode raw st.samples rows with
    | Except.error e => Except.error e
    | Except.ok (ys, s, rem) =>
      Except.ok (ys, ⟨s, { st.stream with data := some rem }⟩)

/-! ## Concrete fixtures used by witnesses and counterexamples -/

/-- A sample decoded observation. -/
def exObs : ObsData := ⟨100, 42⟩

/-- A sample successful reading. -/
def exReading : Reading := ⟨[1, 2], exObs⟩

/-- A decode capability that accepts every frame, stamping the given time
(stands for a sensor model whose records all decode cleanly). -/
def decode0 : List Nat → Int → Except DecodeErr ObsData :=
  fun _ t => Except.ok ⟨t, 0⟩

/-- A two-record captured log, both records for model `PMS3003`. -/
def rows2 : List Record := [⟨"PMS3003", 1, [0]⟩, ⟨"PMS3003", 2, [1]⟩]

/-- A three-record captured log with one record for another model. -/
def rows3 : List Record :=
  [⟨"PMS3003", 1, [0]⟩, ⟨"SDS011", 5, [9]⟩, ⟨"PMS3003", 2, [1]⟩]

/-! ## Helper lemmas -/

/-- `sensorOpen` always leaves the stream with the port open and the
pre-heat counter zeroed, whichever way its checks go. -/
theorem sensorOpen_state (st : SensorStreamState) (w p : List Nat)
    (c : List Nat → Bool) : (sensorOpen st w p c).state = ⟨0, true⟩ := by
  simp only [sensorOpen]
  split_ifs <;> rfl

/-- The pre-heat wait of `sensorOpen` is the incoming counter value. -/
theorem sensorOpen_wait (st : SensorStreamState) (w p : List Nat)
    (c : List Nat → Bool) : (sensorOpen st w p c).wait = st.pre_heat := by
  simp only [sensorOpen]
  split_ifs <;> rfl

/-- With a bounded sample budget and an all-success trace long enough,
the sensor read loop yields exactly the remaining budget. -/
theorem sensorLoop_length_bounded (raw : Bool) (interval : Option Int) :
    ∀ (events : List ReadEvent) (n sample : Int),
      (∀ e ∈ events, e.isSuccess = true) → sample < n →
      n - sample ≤ (events.length : Int) →
      ((sensorLoop raw interval (some n) sample events).yields.length : Int) =
        n - sample := by
  intro events
  induction events with
  | nil =>
    intro n sample _ hlt hle
    simp only [List.length_nil, Nat.cast_zero] at hle
    omega
  | cons e rest ih =>
    intro n sample hall hlt hle
    cases e with
    | success rd now =>
      by_cases hge : sample + 1 ≥ n
      · simp [sensorLoop, hge]
        omega
      · have hrest : ∀ x ∈ rest, x.isSuccess = true :=
          fun x hx => hall x (List.mem_cons_of_mem _ hx)
        have hlen : n - (sample + 1) ≤ (rest.length : Int) := by
          simp only [List.length_cons] at hle
          omega
        have hrec := ih n (sample + 1) hrest (by omega) hlen
        simp [sensorLoop, hge]
        omega
    | notReady =>
      have := hall _ (List.mem_cons_self _ _)
      simp [ReadEvent.isSuccess] at this
    | warning =>
      have := hall _ (List.mem_cons_self _ _)
      simp [ReadEvent.isSuccess] at this
    | exhausted =>
      have := hall _ (List.mem_cons_self _ _)
      simp [ReadEvent.isSuccess] at this

/-- With an unbounded sample budget and an all-success trace, the sensor
read loop yields one item per trace entry. -/
theorem sensorLoop_length_unbounded (raw : Bool) (interval : Option Int) :
    ∀ (events : List ReadEvent) (sample : Int),
      (∀ e ∈ events, e.isSuccess = true) →
      (sensorLoop raw interval none sample events).yields.length =
        events.length := by
  intro events
  induction events with
  | nil => intro sample _; rfl
  | cons e rest ih =>
    intro sample hall
    cases e with
    | success rd now =>
      have hrest : ∀ x ∈ rest, x.isSuccess = true :=
        fun x hx => hall x (List.mem_cons_of_mem _ hx)
      simp [sensorLoop, ih (sample + 1) hrest]
    | notReady =>
      have := hall _ (List.mem_cons_self _ _)
      simp [ReadEvent.isSuccess] at this
    | warning =>
      have := hall _ (List.mem_cons_self _ _)
      simp [ReadEvent.isSuccess] at this
    | exhausted =>
      have := hall _ (List.mem_cons_self _ _)
      simp [ReadEvent.isSuccess] at this

/-- With a falsy sample budget (`None` or `0`) and cleanly decoding rows,
the message read loop consumes the whole generator and yields one item
per row, leaving the budget untouched. -/
theorem messageLoop_falsy (decode : List Nat → Int → Except DecodeErr ObsData)
    (raw : Bool) :
    ∀ (rows : List Record) (s : Option Int), s = none ∨ s = some 0 →
      (∀ r ∈ rows, ∃ o, decode r.hex r.time = Except.ok o) →
      messageLoop decode raw s rows =
        Except.ok (rows.filterMap (decodedItem decode raw), s, []) := by
  intro rows
  induction rows with
  | nil => intro s _ _; simp [messageLoop]
  | cons row rest ih =>
    intro s hs hall
    obtain ⟨o, ho⟩ := hall row (List.mem_cons_self _ _)
    have hrest : ∀ r ∈ rest, ∃ o, decode r.hex r.time = Except.ok o :=
      fun r hr => hall r (List.mem_cons_of_mem _ hr)
    rcases hs with rfl | rfl
    · simp [messageLoop, ho, ih none (Or.inl rfl) hrest,
        List.filterMap_cons, decodedItem]
    · simp [messageLoop, ho, ih (some 0) (Or.inr rfl) hrest,
        List.filterMap_cons, decodedItem]

/-- When every row decodes cleanly, the filtered yield list has one item
per row. -/
theorem filterMap_decodedItem_length
    (decode : List Nat → Int → Except DecodeErr ObsData) (raw : Bool) :
    ∀ rows : List Record,
      (∀ r ∈ rows, ∃ o, decode r.hex r.time = Except.ok o) →
      (rows.filterMap (decodedItem decode raw)).length = rows.length := by
  intro rows
  induction rows with
  | nil => intro _; rfl
  | cons row rest ih =>
    intro hall
    obtain ⟨o, ho⟩ := hall row (List.mem_cons_self _ _)
    have hrest : ∀ r ∈ rest, ∃ o, decode r.hex r.time = Except.ok o :=
      fun r hr => hall r (List.mem_cons_of_mem _ hr)
    simp [List.filterMap_cons, decodedItem, ho, ih hrest]

/-- With a truthy sample budget `n ≥ 1` and at least `n` cleanly decoding
rows, the message read loop yields exactly `n` items, drives the budget
down to `0` in place, and leaves the rest of the generator unconsumed. -/
theorem messageLoop_length_bounded
    (decode : List Nat → Int → Except DecodeErr ObsData) (raw : Bool) :
    ∀ (rows : List Record) (n : Int), 1 ≤ n → n ≤ (rows.length : Int) →
      (∀ r ∈ rows, ∃ o, decode r.hex r.time = Except.ok o) →
      ∃ ys, messageLoop decode raw (some n) rows =
          Except.ok (ys, some 0, rows.drop n.toNat) ∧ (ys.length : Int) = n := by
  intro rows
  induction rows with
  | nil =>
    intro n h1 hle _
    simp only [List.length_nil, Nat.cast_zero] at hle
    omega
  | cons row rest ih =>
    intro n h1 hle hall
    obtain ⟨o, ho⟩ := hall row (List.mem_cons_self _ _)
    have hrest : ∀ r ∈ rest, ∃ o, decode r.hex r.time = Except.ok o :=
      fun r hr => hall r (List.mem_cons_of_mem _ hr)
    have hn0 : ¬ n = 0 := by omega
    by_cases hone : n = 1
    · subst hone
      refine ⟨[if raw then Yielded.raw ⟨o.time, row.hex⟩ else Yielded.obs o], ?_, ?_⟩
      · simp only [messageLoop, ho]
        norm_num
      · simp
    · have h2 : 1 ≤ n - 1 := by omega
      have hlen : n - 1 ≤ (rest.length : Int) := by
        simp only [List.length_cons] at hle
        push_cast at hle
        omega
      obtain ⟨ys, hloop, hlens⟩ := ih (n - 1) h2 hlen hrest
      refine ⟨(if raw then Yielded.raw ⟨o.time, row.hex⟩ else Yielded.obs o) :: ys, ?_, ?_⟩
      · have hdrop : (row :: rest).drop n.toNat = rest.drop (n - 1).toNat := by
          have hsucc : n.toNat = (n - 1).toNat + 1 := by omega
          rw [hsucc, List.drop_succ_cons]
        have hif : ¬ n - 1 ≤ 0 := by omega
        rw [hdrop]
        simp only [messageLoop, ho, hn0, hif, if_false, ite_false, hloop]
      · simp only [List.length_cons]
        push_cast
        omega

/-- Any run of consecutive `SensorNotReady` outcomes is absorbed by the
sensor read loop: each one adds exactly the fixed 5-second settle sleep
and the loop then continues as if the run were not there — no budget is
ever consumed, because none exists. -/
theorem sensorLoop_notReady_run (raw : Bool) (interval : Option Int)
    (samples : Option Int) (sample : Int) :
    ∀ (k : Nat) (events : List ReadEvent),
      sensorLoop raw interval samples sample
          (List.replicate k ReadEvent.notReady ++ events) =
        ⟨(sensorLoop raw interval samples sample events).yields,
          (sensorLoop raw interval samples sample events).settleTotal + 5 * k,
          (sensorLoop raw interval samples sample events).pacingTotal⟩ := by
  intro k
  induction k with
  | zero => intro events; simp
  | succ m ih =>
    intro events
    rw [List.replicate_succ, List.cons_append]
    show (⟨_, _ + 5, _⟩ : SensorRun) = _
    rw [ih events]
    refine congrArg (SensorRun.mk _ · _) ?_
    push_cast
    ring

/-! ## Claims -/

/-- C1: the claim (with the spec and the repository's own tests, e.g.
`test_sensor_reader_warm_up_exhaust_retries`) requires a `max_retries`
budget on `SensorReader`, whose exhaustion turns a `SensorNotReady` read
into a raised warming-up error — in particular `max_retries = 0` must
raise instead of yielding.  The code has no such parameter:
`SensorReader.__init__` accepts no `max_retries` (the test suite's
constructor calls are `TypeError`s against it) and `__call__` answers
every `SensorNotReady` with a fixed 5-second settle sleep followed by an
unconditional retry.  This theorem evaluates the code on the tests'
scenario — a not-ready read followed by a successful one, sample budget
1: the observation is yielded after a single 5-second settle sleep, and,
in general, any number `k` of consecutive not-ready reads is absorbed at
a settle cost of `5 * k` seconds with nothing ever raised (`SensorRun`
has no error outcome at all). -/
theorem claim_C1_no_retry_budget :
    sensorReaderCall false none (some 1)
        [ReadEvent.notReady, ReadEvent.success exReading 100] =
      ⟨[Yielded.obs exObs], 5, 0⟩ ∧
    (∀ (k : Nat) (rd : Reading) (now : Int),
      sensorReaderCall false none (some 1)
          (List.replicate k ReadEvent.notReady ++ [ReadEvent.success rd now]) =
        ⟨[Yielded.obs rd.obs_data], 5 * k, 0⟩) := by
  constructor
  · rfl
  · intro k rd now
    unfold sensorReaderCall
    rw [sensorLoop_notReady_run]
    have hbase : sensorLoop false none (some 1) 0 [ReadEvent.success rd now] =
        ⟨[Yielded.obs rd.obs_data], 0, 0⟩ := by
      simp [sensorLoop]
    rw [hbase]
    simp

/-- C5: the pre-heat wait is performed exactly once across a
`SensorStream` instance's lifetime: whatever the device answers, the
first `open()` leaves the pre-heat counter at zero (`_pre_heat` zeroes
it before `open`'s response checks can raise), so a second `open()` on
the resulting state performs a zero-second pre-heat wait. -/
theorem claim_C5_preheat_once (st : SensorStreamState) (w1 p1 : List Nat)
    (c1 : List Nat → Bool) (w2 p2 : List Nat) (c2 : List Nat → Bool) :
    (sensorOpen st w1 p1 c1).state.pre_heat = 0 ∧
    (sensorOpen ((sensorOpen st w1 p1 c1).state) w2 p2 c2).wait = 0 := by
  constructor
  · rw [sensorOpen_state]
  · rw [sensorOpen_wait, sensorOpen_state]

/-- C6: a zero-length combined wake/passive-mode response buffer makes
`SensorStream.open` raise the fatal "did not respond" `UnableToRead`
error, and a non-empty buffer failing the sensor model's `check` makes
it raise the fatal "failed validation" `UnableToRead` error; in both
cases `Reader.__enter__` propagates the exception, so the Reader scope
is never entered. -/
theorem claim_C6_fatal_open (st : SensorStreamState) (wakeResp pmResp : List Nat)
    (check : List Nat → Bool) :
    (wakeResp ++ pmResp = [] →
      (sensorOpen st wakeResp pmResp check).error = some OpenError.didNotRespond ∧
      readerEnterSensor st wakeResp pmResp check =
        Except.error OpenError.didNotRespond) ∧
    (wakeResp ++ pmResp ≠ [] → check (wakeResp ++ pmResp) = false →
      (sensorOpen st wakeResp pmResp check).error = some OpenError.failedValidation ∧
      readerEnterSensor st wakeResp pmResp check =
        Except.error OpenError.failedValidation) := by
  constructor
  · intro h
    have hlen : (wakeResp ++ pmResp).length = 0 := by rw [h]; rfl
    refine ⟨?_, ?_⟩
    · simp [sensorOpen, hlen]
    · simp [readerEnterSensor, sensorOpen, hlen]
  · intro hne hc
    have hlen : ¬ (wakeResp ++ pmResp).length = 0 := by
      simpa [List.length_eq_zero] using hne
    have hboth : ¬ (wakeResp = [] ∧ pmResp = []) := by
      simpa [List.append_eq_nil] using hne
    refine ⟨?_, ?_⟩
    · simp [sensorOpen, hlen, hc, hboth]
    · simp [readerEnterSensor, sensorOpen, hlen, hc, hboth]

/-- Witness for C6: a silent device (empty responses) gives the
"did not respond" error; a device whose 1-byte response fails validation
gives the "failed validation" error. -/
theorem claim_C6_fatal_open_witness :
    (sensorOpen ⟨3, false⟩ [] [] (fun _ => true)).error =
      some OpenError.didNotRespond ∧
    (sensorOpen ⟨3, false⟩ [1] [] (fun _ => false)).error =
      some OpenError.failedValidation :=
  ⟨((claim_C6_fatal_open ⟨3, false⟩ [] [] (fun _ => true)).1 rfl).1,
   ((claim_C6_fatal_open ⟨3, false⟩ [1] [] (fun _ => false)).2
      (by decide) rfl).1⟩

/-- C7 counterexample: the claim says `close()` never raises even when
`open()` was never called, but `MessageStream.close` reads the attribute
`self.csv`, which only `open()` creates; on a freshly constructed
`MessageStream` the access raises `AttributeError`. -/
theorem claim_C7_counterexample :
    msClose msInit = Except.error PyError.attributeError := rfl

/-- C7 amended: `close()` releases the transport without raising whenever
`open()` has actually run — even an `open()` that failed its checks,
since `MessageStream.open` creates the file handle first and
`SensorStream.open` opens the port before any response check — but a
`MessageStream` whose `open()` never ran raises `AttributeError` from
`close()` (`self.csv` does not exist). -/
theorem claim_C7_close_release (st : MessageStreamState) (rows : List Record)
    (model : String) (sst : SensorStreamState) (w p : List Nat)
    (c : List Nat → Bool) (d : Option (List Record)) :
    msClose (msOpen st rows model) =
      Except.ok ⟨some false, some (rows.filter (fun r => r.sensor = model))⟩ ∧
    sensorClose (sensorOpen sst w p c).state = Except.ok ⟨0, false⟩ ∧
    msClose ⟨none, d⟩ = Except.error PyError.attributeError := by
  refine ⟨rfl, ?_, rfl⟩
  rw [sensorOpen_state]
  rfl

/-- C9: the claim says `hexdump` with no `line` argument returns a dump
whose 8-hex-digit offset is derived from the `RawData` value itself.  In
the source, `offset = time if line is None else line * len(self.data)`
resolves `time` to the module-level `import time` — not the field
`self.time` — so with `line is None` the format `f"{offset:08x}"` is
applied to a module object and raises `TypeError`; the intended
`self.time`-derived offset is never produced.  With an explicit `line`
the dump is produced as specified (offset `line * len(data)`, hex byte
pairs, printable-or-dot decode — note `0x7E` is already mapped to a dot
by `HEXDUMP_TABLE`). -/
theorem claim_C9_hexdump_offset :
    RawData.hexdump ⟨123, [0x41]⟩ none = Except.error PyError.typeError ∧
    RawData.hexdump ⟨123, [0x41, 0x7E]⟩ (some 1) =
      Except.ok "00000002: 41 7e  A." := ⟨rfl, rfl⟩

/-- C2: a Reader configured with `samples = N ≥ 1` over a stream whose
every read attempt succeeds yields exactly N items and then stops
without error — for `SensorReader` (an all-success trace at least N
long) and for `MessageReader` (an opened stream with at least N cleanly
decoding records; the call returns `Except.ok`, i.e. nothing is
raised). -/
theorem claim_C2_yields_exactly_n :
    (∀ (n : Int) (raw : Bool) (interval : Option Int) (events : List ReadEvent),
      1 ≤ n → (∀ e ∈ events, e.isSuccess = true) → n ≤ (events.length : Int) →
      ((sensorReaderCall raw interval (some n) events).yields.length : Int) = n) ∧
    (∀ (n : Int) (decode : List Nat → Int → Except DecodeErr ObsData)
        (raw : Bool) (rows : List Record),
      1 ≤ n → n ≤ (rows.length : Int) →
      (∀ r ∈ rows, ∃ o, decode r.hex r.time = Except.ok o) →
      ∃ ys st2, messageCall decode raw ⟨some n, ⟨some true, some rows⟩⟩ =
          Except.ok (ys, st2) ∧ (ys.length : Int) = n) := by
  constructor
  · intro n raw interval events h1 hall hlen
    have h := sensorLoop_length_bounded raw interval events n 0 hall
      (by omega) (by omega)
    unfold sensorReaderCall
    omega
  · intro n decode raw rows h1 hlen hall
    obtain ⟨ys, hloop, hys⟩ := messageLoop_length_bounded decode raw rows n h1 hlen hall
    exact ⟨ys, ⟨some 0, ⟨some true, some (rows.drop n.toNat)⟩⟩,
      by simp [messageCall, hloop], hys⟩

/-- Witness for C2: a `SensorReader` with `samples = 2` over two
successful reads yields 2 items; a `MessageReader` with `samples = 1`
over a two-record log yields 1 item and raises nothing. -/
theorem claim_C2_yields_exactly_n_witness :
    ((sensorReaderCall false none (some 2)
        [ReadEvent.success exReading 100,
         ReadEvent.success exReading 101]).yields.length : Int) = 2 ∧
    ∃ ys st2, messageCall decode0 false ⟨some 1, ⟨some true, some rows2⟩⟩ =
        Except.ok (ys, st2) ∧ (ys.length : Int) = 1 :=
  ⟨claim_C2_yields_exactly_n.1 2 false none
      [ReadEvent.success exReading 100, ReadEvent.success exReading 101]
      (by decide) (by decide) (by decide),
   claim_C2_yields_exactly_n.2 1 decode0 false rows2 (by decide) (by decide)
      (fun r _ => ⟨⟨r.time, 0⟩, rfl⟩)⟩

/-- C3 counterexample: the claim says every Reader constructed with
`samples` less than 1 yields exactly one item, but a `MessageReader`
with `samples = 0` treats the falsy budget like `None`: over a
two-record stream it yields both records, not one. -/
theorem claim_C3_counterexample :
    messageCall decode0 false ⟨some 0, ⟨some true, some rows2⟩⟩ =
      Except.ok ([Yielded.obs ⟨1, 0⟩, Yielded.obs ⟨2, 0⟩],
        ⟨some 0, ⟨some true, some []⟩⟩) := rfl

/-- C3 amended: `SensorReader` behaves as claimed — any `samples` value
below 1 yields exactly one item, because the break compares
`sample >= self.samples` after the first yield.  `MessageReader` coerces
only negative `samples` to one item; `samples = 0` is falsy, hence
treated like `None`, i.e. unbounded.  `samples = None` is unbounded for
both Readers (one item yielded per successful read). -/
theorem claim_C3_samples_coercion :
    (∀ (n : Int) (raw : Bool) (interval : Option Int) (rd : Reading)
        (now : Int) (rest : List ReadEvent), n < 1 →
      (sensorReaderCall raw interval (some n)
          (ReadEvent.success rd now :: rest)).yields.length = 1) ∧
    (∀ (n : Int) (decode : List Nat → Int → Except DecodeErr ObsData)
        (raw : Bool) (row : Record) (rest : List Record) (o : ObsData),
      n < 0 → decode row.hex row.time = Except.ok o →
      ∃ ys st2, messageCall decode raw ⟨some n, ⟨some true, some (row :: rest)⟩⟩ =
          Except.ok (ys, st2) ∧ ys.length = 1) ∧
    (∀ (decode : List Nat → Int → Except DecodeErr ObsData) (raw : Bool)
        (rows : List Record),
      (∀ r ∈ rows, ∃ o, decode r.hex r.time = Except.ok o) →
      ∃ ys st2, messageCall decode raw ⟨some 0, ⟨some true, some rows⟩⟩ =
          Except.ok (ys, st2) ∧ ys.length = rows.length) ∧
    (∀ (raw : Bool) (interval : Option Int) (events : List ReadEvent),
      (∀ e ∈ events, e.isSuccess = true) →
      (sensorReaderCall raw interval none events).yields.length = events.length) ∧
    (∀ (decode : List Nat → Int → Except DecodeErr ObsData) (raw : Bool)
        (rows : List Record),
      (∀ r ∈ rows, ∃ o, decode r.hex r.time = Except.ok o) →
      ∃ ys st2, messageCall decode raw ⟨none, ⟨some true, some rows⟩⟩ =
          Except.ok (ys, st2) ∧ ys.length = rows.length) := by
  refine ⟨?_, ?_, ?_, ?_, ?_⟩
  · intro n raw interval rd now rest hn
    have hge : n ≤ 1 := by omega
    simp [sensorReaderCall, sensorLoop, hge]
  · intro n decode raw row rest o hn ho
    have hn0 : ¬ n = 0 := by omega
    have hle : n - 1 ≤ 0 := by omega
    refine ⟨[if raw then Yielded.raw ⟨o.time, row.hex⟩ else Yielded.obs o],
      ⟨some (n - 1), ⟨some true, some rest⟩⟩, ?_, rfl⟩
    simp [messageCall, messageLoop, ho, hn0, hle]
  · intro decode raw rows hall
    refine ⟨rows.filterMap (decodedItem decode raw),
      ⟨some 0, ⟨some true, some []⟩⟩, ?_, ?_⟩
    · simp [messageCall, messageLoop_falsy decode raw rows (some 0) (Or.inr rfl) hall]
    · exact filterMap_decodedItem_length decode raw rows hall
  · intro raw interval events hall
    exact sensorLoop_length_unbounded raw interval events 0 hall
  · intro decode raw rows hall
    refine ⟨rows.filterMap (decodedItem decode raw),
      ⟨none, ⟨some true, some []⟩⟩, ?_, ?_⟩
    · simp [messageCall, messageLoop_falsy decode raw rows none (Or.inl rfl) hall]
    · exact filterMap_decodedItem_length decode raw rows hall

/-- Witness for the amended C3, one concrete instance per conjunct:
`SensorReader` with `samples = 0` yields one item; `MessageReader` with
`samples = -1` yields one item; `MessageReader` with `samples = 0`
yields both of two records; both Readers with `samples = None` yield one
item per successful read. -/
theorem claim_C3_samples_coercion_witness :
    (sensorReaderCall false none (some 0)
        [ReadEvent.success exReading 100]).yields.length = 1 ∧
    (∃ ys st2, messageCall decode0 false
        ⟨some (-1), ⟨some true, some rows2⟩⟩ = Except.ok (ys, st2) ∧
      ys.length = 1) ∧
    (∃ ys st2, messageCall decode0 false
        ⟨some 0, ⟨some true, some rows2⟩⟩ = Except.ok (ys, st2) ∧
      ys.length = rows2.length) ∧
    (sensorReaderCall false none none
        [ReadEvent.success exReading 100]).yields.length =
      ([ReadEvent.success exReading 100] : List ReadEvent).length ∧
    (∃ ys st2, messageCall decode0 false
        ⟨none, ⟨some true, some rows2⟩⟩ = Except.ok (ys, st2) ∧
      ys.length = rows2.length) :=
  ⟨claim_C3_samples_coercion.1 0 false none exReading 100 [] (by decide),
   claim_C3_samples_coercion.2.1 (-1) decode0 false ⟨"PMS3003", 1, [0]⟩
      [⟨"PMS3003", 2, [1]⟩] ⟨1, 0⟩ (by decide) rfl,
   claim_C3_samples_coercion.2.2.1 decode0 false rows2
      (fun r _ => ⟨⟨r.time, 0⟩, rfl⟩),
   claim_C3_samples_coercion.2.2.2.1 false none
      [ReadEvent.success exReading 100] (by decide),
   claim_C3_samples_coercion.2.2.2.2 decode0 false rows2
      (fun r _ => ⟨⟨r.time, 0⟩, rfl⟩)⟩

/-- C4: after a successful yield with more samples remaining and a
configured (truthy) `interval = I`, the pacing sleep inserted by
`SensorReader.__call__` lasts exactly `max 0 (I - elapsed)` where
`elapsed = time.time() - reading.time` is measured against the previous
reading's own timestamp, not the wall-clock time of the call; in
particular no sleep is inserted once `elapsed` has reached `I`. -/
theorem claim_C4_interval_pacing (raw : Bool) (i : Int) (samples : Option Int)
    (sample : Int) (rd : Reading) (now : Int) (rest : List ReadEvent)
    (hi : i ≠ 0) (hmore : ∀ n, samples = some n → sample + 1 < n) :
    (sensorLoop raw (some i) samples sample
        (ReadEvent.success rd now :: rest)).pacingTotal =
      max 0 (i - (now - rd.time)) +
        (sensorLoop raw (some i) samples (sample + 1) rest).pacingTotal ∧
    (i ≤ now - rd.time →
      (sensorLoop raw (some i) samples sample
          (ReadEvent.success rd now :: rest)).pacingTotal =
        (sensorLoop raw (some i) samples (sample + 1) rest).pacingTotal) := by
  have hpd : pacingDelay (some i) now rd.time = max 0 (i - (now - rd.time)) := by
    simp only [pacingDelay, if_neg hi]
    split <;> omega
  have hmain : (sensorLoop raw (some i) samples sample
      (ReadEvent.success rd now :: rest)).pacingTotal =
        max 0 (i - (now - rd.time)) +
          (sensorLoop raw (some i) samples (sample + 1) rest).pacingTotal := by
    cases samples with
    | none => simp only [sensorLoop]; rw [hpd]
    | some n =>
      have hlt : ¬ sample + 1 ≥ n := by
        have := hmore n rfl
        omega
      simp only [sensorLoop, if_neg hlt]
      rw [hpd]
  refine ⟨hmain, fun h => ?_⟩
  rw [hmain]
  have h0 : max 0 (i - (now - rd.time)) = 0 := by omega
  rw [h0, zero_add]

/-- Witness for C4: interval 10, previous reading stamped 100, clock now
103: the pacing sleep is `max 0 (10 - 3) = 7` plus whatever the rest of
the run sleeps. -/
theorem claim_C4_interval_pacing_witness :
    (sensorLoop false (some 10) (some 5) 0
        [ReadEvent.success exReading 103]).pacingTotal =
      max 0 (10 - (103 - exReading.time)) +
        (sensorLoop false (some 10) (some 5) 1 []).pacingTotal ∧
    (10 ≤ 103 - exReading.time →
      (sensorLoop false (some 10) (some 5) 0
          [ReadEvent.success exReading 103]).pacingTotal =
        (sensorLoop false (some 10) (some 5) 1 []).pacingTotal) :=
  claim_C4_interval_pacing false 10 (some 5) 0 exReading 103 []
    (by decide) (by intro n h; cases h; decide)

/-- C8: a `MessageReader` (`samples` unset) over a captured log, once its
scope is entered (`open()` filters the rows to the configured model),
yields exactly one observation per record whose `sensor` field matches
the model, in file order, skipping the rest; and iterating the same
Reader without entering its scope (stream never opened, `self.data`
missing) yields zero observations and raises nothing. -/
theorem claim_C8_replay_filter :
    (∀ (decode : List Nat → Int → Except DecodeErr ObsData) (raw : Bool)
        (samples : Option Int) (csv : Option Bool),
      messageCall decode raw ⟨samples, ⟨csv, none⟩⟩ =
        Except.ok ([], ⟨samples, ⟨csv, none⟩⟩)) ∧
    (∀ (decode : List Nat → Int → Except DecodeErr ObsData)
        (st : MessageStreamState) (rows : List Record) (model : String),
      (∀ r ∈ rows.filter (fun r => r.sensor = model),
        ∃ o, decode r.hex r.time = Except.ok o) →
      messageCall decode false ⟨none, msOpen st rows model⟩ =
        Except.ok
          ((rows.filter (fun r => r.sensor = model)).filterMap
            (decodedItem decode false),
          ⟨none, ⟨some true, some []⟩⟩) ∧
      ((rows.filter (fun r => r.sensor = model)).filterMap
          (decodedItem decode false)).length =
        (rows.filter (fun r => r.sensor = model)).length) := by
  constructor
  · intro decode raw samples csv
    rfl
  · intro decode st rows model hall
    constructor
    · simp [messageCall, msOpen,
        messageLoop_falsy decode false (rows.filter (fun r => r.sensor = model))
          none (Or.inl rfl) hall]
    · exact filterMap_decodedItem_length decode false
        (rows.filter (fun r => r.sensor = model)) hall

/-- Witness for C8: a three-record log with two `PMS3003` records and one
`SDS011` record, filtered to `PMS3003`, yields the two matching
observations in file order; the part about a never-opened stream is
instantiated with an arbitrary budget. -/
theorem claim_C8_replay_filter_witness :
    messageCall decode0 false ⟨none, ⟨none, none⟩⟩ =
      Except.ok ([], ⟨none, ⟨none, none⟩⟩) ∧
    messageCall decode0 false ⟨none, msOpen msInit rows3 "PMS3003"⟩ =
      Except.ok
        ((rows3.filter (fun r => r.sensor = "PMS3003")).filterMap
          (decodedItem decode0 false),
        ⟨none, ⟨some true, some []⟩⟩) ∧
    ((rows3.filter (fun r => r.sensor = "PMS3003")).filterMap
        (decodedItem decode0 false)).length =
      (rows3.filter (fun r => r.sensor = "PMS3003")).length :=
  ⟨claim_C8_replay_filter.1 decode0 false none none,
   (claim_C8_replay_filter.2 decode0 msInit rows3 "PMS3003"
      (fun r _ => ⟨⟨r.time, 0⟩, rfl⟩)).1,
   (claim_C8_replay_filter.2 decode0 msInit rows3 "PMS3003"
      (fun r _ => ⟨⟨r.time, 0⟩, rfl⟩)).2⟩

/-- C10 counterexample: the claim says that after one invocation of a
`MessageReader` with `samples = N` yields its N items, every later
invocation yields zero further items.  With `samples = 1` over a
two-record log, the first invocation yields one item and leaves
`self.samples == 0` with one record left in the generator; `0` is falsy,
so the second invocation of the same instance yields that record too —
one further item, not zero. -/
theorem claim_C10_counterexample :
    messageCall decode0 false ⟨some 1, ⟨some true, some rows2⟩⟩ =
      Except.ok ([Yielded.obs ⟨1, 0⟩],
        ⟨some 0, ⟨some true, some [⟨"PMS3003", 2, [1]⟩]⟩⟩) ∧
    messageCall decode0 false
        ⟨some 0, ⟨some true, some [(⟨"PMS3003", 2, [1]⟩ : Record)]⟩⟩ =
      Except.ok ([Yielded.obs ⟨2, 0⟩], ⟨some 0, ⟨some true, some []⟩⟩) :=
  ⟨rfl, rfl⟩

/-- C10 amended: the `MessageReader` sample budget is mutable instance
state decremented in place — an invocation that yields its `N` items
leaves `self.samples == 0` and the generator advanced past the consumed
records — but the exhausted budget is falsy, so a later invocation of
the same instance treats it as unbounded and yields every record still
in the generator (zero further items only when the log is already
exhausted).  `SensorReader` is per-invocation as claimed: its counter is
a local variable starting at zero, so each invocation over a
sufficiently long all-success trace yields the full cap again. -/
theorem claim_C10_budget_across_calls :
    (∀ (decode : List Nat → Int → Except DecodeErr ObsData) (raw : Bool)
        (n : Int) (rows : List Record),
      1 ≤ n → n ≤ (rows.length : Int) →
      (∀ r ∈ rows, ∃ o, decode r.hex r.time = Except.ok o) →
      ∃ ys, messageCall decode raw ⟨some n, ⟨some true, some rows⟩⟩ =
          Except.ok (ys, ⟨some 0, ⟨some true, some (rows.drop n.toNat)⟩⟩) ∧
        (ys.length : Int) = n) ∧
    (∀ (decode : List Nat → Int → Except DecodeErr ObsData) (raw : Bool)
        (rows : List Record),
      (∀ r ∈ rows, ∃ o, decode r.hex r.time = Except.ok o) →
      ∃ ys st2, messageCall decode raw ⟨some 0, ⟨some true, some rows⟩⟩ =
          Except.ok (ys, st2) ∧ ys.length = rows.length) ∧
    (∀ (n : Int) (raw : Bool) (interval : Option Int)
        (ev1 ev2 : List ReadEvent),
      1 ≤ n →
      (∀ e ∈ ev1, e.isSuccess = true) → n ≤ (ev1.length : Int) →
      (∀ e ∈ ev2, e.isSuccess = true) → n ≤ (ev2.length : Int) →
      ((sensorReaderCall raw interval (some n) ev1).yields.length : Int) = n ∧
      ((sensorReaderCall raw interval (some n) ev2).yields.length : Int) = n) := by
  refine ⟨?_, ?_, ?_⟩
  · intro decode raw n rows h1 hlen hall
    obtain ⟨ys, hloop, hys⟩ := messageLoop_length_bounded decode raw rows n h1 hlen hall
    exact ⟨ys, by simp [messageCall, hloop], hys⟩
  · intro decode raw rows hall
    refine ⟨rows.filterMap (decodedItem decode raw),
      ⟨some 0, ⟨some true, some []⟩⟩, ?_,
      filterMap_decodedItem_length decode raw rows hall⟩
    simp [messageCall, messageLoop_falsy decode raw rows (some 0) (Or.inr rfl) hall]
  · intro n raw interval ev1 ev2 h1 hall1 hlen1 hall2 hlen2
    have e1 := sensorLoop_length_bounded raw interval ev1 n 0 hall1 (by omega) (by omega)
    have e2 := sensorLoop_length_bounded raw interval ev2 n 0 hall2 (by omega) (by omega)
    unfold sensorReaderCall
    omega

/-- Witness for the amended C10: with `samples = 1` over the two-record
log, the first invocation ends with the budget at 0 and one record left;
the follow-up invocation (budget 0) yields the single remaining record;
and a `SensorReader` with `samples = 1` yields one item on each of two
separate invocations. -/
theorem claim_C10_budget_across_calls_witness :
    (∃ ys, messageCall decode0 false ⟨some 1, ⟨some true, some rows2⟩⟩ =
        Except.ok (ys, ⟨some 0, ⟨some true, some (rows2.drop (1 : Int).toNat)⟩⟩) ∧
      (ys.length : Int) = 1) ∧
    (∃ ys st2, messageCall decode0 false
        ⟨some 0, ⟨some true, some [(⟨"PMS3003", 2, [1]⟩ : Record)]⟩⟩ =
        Except.ok (ys, st2) ∧
      ys.length = ([(⟨"PMS3003", 2, [1]⟩ : Record)] : List Record).length) ∧
    (((sensorReaderCall false none (some 1)
        [ReadEvent.success exReading 100]).yields.length : Int) = 1 ∧
      ((sensorReaderCall false none (some 1)
        [ReadEvent.success exReading 101]).yields.length : Int) = 1) :=
  ⟨claim_C10_budget_across_calls.1 decode0 false 1 rows2 (by decide) (by decide)
      (fun r _ => ⟨⟨r.time, 0⟩, rfl⟩),
   claim_C10_budget_across_calls.2.1 decode0 false
      [(⟨"PMS3003", 2, [1]⟩ : Record)] (fun r _ => ⟨⟨r.time, 0⟩, rfl⟩),
   claim_C10_budget_across_calls.2.2 1 false none
      [ReadEvent.success exReading 100] [ReadEvent.success exReading 101]
      (by decide) (by decide) (by decide) (by decide) (by decide)⟩

end PyPMS
